import Mathlib

/-!
Verification of the XML-to-summary layer of `pytest-confluence-report`
(`src/report/xml.py`), shallowly embedded in Lean 4.

The external parser (`junitparser`) is a black box producing a document
tree; we embed the tree shape the code reads: aggregate counters
(`tests`, `skipped`, `failures`, `errors`), an ordered list of suites,
each holding an ordered list of cases, each case carrying a name, a
classname and an optional result object.  Python integers are embedded
as `Int`; mutable iterators and the `ReportPage` buffer are embedded as
explicit state passing.
-/

/-- Document tree node for one test case as read by the code:
`name`, `classname` and the optional `result` object (`None` iff the
case passed).  The payload of the result object is never inspected. -/
structure JCase where
  name : String
  classname : String
  result : Option String
  deriving Repr, DecidableEq

/-- Document tree node for one test suite: a name and an ordered list
of cases (iteration order of `junitparser.TestSuite`). -/
structure JSuite where
  name : String
  cases : List JCase
  deriving Repr, DecidableEq

/-- Root of the parsed document (`junitparser.JUnitXml`): the aggregate
counters the code reads, the document name, and the ordered suite list
(iteration order of the root element). -/
structure JUnitXml where
  name : String
  tests : Int
  skipped : Int
  failures : Int
  errors : Int
  suites : List JSuite
  deriving Repr, DecidableEq

/-- Embedding of `_Outcome` (src/report/xml.py, lines 12-51): wraps the
parsed report. -/
structure _Outcome where
  _report : JUnitXml
  deriving Repr, DecidableEq

/-- Embedding of `_Outcome.total`: `return self._report.tests`. -/
def _Outcome.total (o : _Outcome) : Int :=
  o._report.tests

/-- Embedding of `_Outcome.skipped`: `return self._report.skipped`. -/
def _Outcome.skipped (o : _Outcome) : Int :=
  o._report.skipped

/-- Embedding of `_Outcome.failed`: `return self._report.failures`. -/
def _Outcome.failed (o : _Outcome) : Int :=
  o._report.failures

/-- Embedding of `_Outcome.errored`: `return self._report.errors`. -/
def _Outcome.errored (o : _Outcome) : Int :=
  o._report.errors

/-- Embedding of `_Outcome.passed`:
`return self.total - self.skipped - self.failed - self.errored`. -/
def _Outcome.passed (o : _Outcome) : Int :=
  o.total - o.skipped - o.failed - o.errored

/-- Embedding of `_Outcome.as_dict`: the five counters as an
insertion-ordered mapping, modelled as an association list. -/
def _Outcome.as_dict (o : _Outcome) : List (String × Int) :=
  [ ("total", o.total),
    ("skipped", o.skipped),
    ("failed", o.failed),
    ("errored", o.errored),
    ("passed", o.passed) ]

/-- Embedding of `_Testcase` (src/report/xml.py, lines 54-70): wraps
one case record. -/
structure _Testcase where
  _case : JCase
  deriving Repr, DecidableEq

/-- Embedding of `_Testcase.status`:
`if self._case.result is None: return 'Passed'` else `return 'Failed'`. -/
def _Testcase.status (c : _Testcase) : String :=
  match c._case.result with
  | none => "Passed"
  | some _ => "Failed"

/-- Embedding of `_Testcase.name`:
`if not suite_prefix: return self._case.name` else
the f-string joining classname and name with a colon. -/
def _Testcase.name (c : _Testcase) ( suite_prefix : Bool) : String :=
  if suite_prefix = false then c._case.name
  else c._case.classname ++ ":" ++ c._case.name

/-- Embedding of `_Testsuite` (src/report/xml.py, lines 73-94): holds
the backing suite and the cursor `_iter_suite = iter(suite)`, embedded
as the list of cases not yet yielded. -/
structure _Testsuite where
  _suite : JSuite
  _iter_suite : List JCase
  deriving Repr, DecidableEq

/-- Construction `_Testsuite(suite)`: the cursor starts at the full
case list. -/
def _Testsuite.fresh (s : JSuite) : _Testsuite :=
  ⟨s, s.cases⟩

/-- Embedding of `_Testsuite.__next__`:
`return _Testcase(next(self._iter_suite))`; `none` is the
`StopIteration` signal of the underlying cursor. -/
def _Testsuite.next : _Testsuite → Option (_Testcase × _Testsuite)
  | ⟨_, []⟩ => none
  | ⟨s, c :: rest⟩ => some (⟨c⟩, ⟨s, rest⟩)

/-- Embedding of `_Testsuite.__len__`: `return len(self._suite)`. -/
def _Testsuite.len (t : _Testsuite) : Nat :=
  t._suite.cases.length

/-- Embedding of `_Testsuite.name`: `return self._suite.name`. -/
def _Testsuite.name (t : _Testsuite) : String :=
  t._suite.name

/-- Driver for the `_Testsuite` iterator: request up to `fuel` elements
with `__next__`, returning the yielded testcases in order together with
the final iterator state.  Stops early at the `StopIteration` signal. -/
def _Testsuite.run : Nat → _Testsuite → List _Testcase × _Testsuite
  | 0, t => ([], t)
  | n + 1, t =>
    match t.next with
    | none => ([], t)
    | some (c, t2) =>
      let r := _Testsuite.run n t2
      (c :: r.1, r.2)

/-- Embedding of `_Testsuites` (src/report/xml.py, lines 97-118): holds
the backing document and the cursor `_suites = iter(xml)`, embedded as
the list of suites not yet yielded. -/
structure _Testsuites where
  _xml : JUnitXml
  _suites : List JSuite
  deriving Repr, DecidableEq

/-- Construction `_Testsuites(xml)`: the cursor starts at the full
suite list. -/
def _Testsuites.fresh (x : JUnitXml) : _Testsuites :=
  ⟨x, x.suites⟩

/-- Embedding of `_Testsuites.__next__`:
`return _Testsuite(next(self._suites))` — each yielded element is a
fresh `_Testsuite` view over the next suite record. -/
def _Testsuites.next : _Testsuites → Option (_Testsuite × _Testsuites)
  | ⟨_, []⟩ => none
  | ⟨x, s :: rest⟩ => some (_Testsuite.fresh s, ⟨x, rest⟩)

/-- Embedding of `_Testsuites.__len__`: `return len(self._xml)`. -/
def _Testsuites.len (t : _Testsuites) : Nat :=
  t._xml.suites.length

/-- Embedding of `_Testsuites.name`: `return self._xml.name`. -/
def _Testsuites.name (t : _Testsuites) : String :=
  t._xml.name

/-- Driver for the `_Testsuites` iterator, analogous to
`_Testsuite.run`. -/
def _Testsuites.run : Nat → _Testsuites → List _Testsuite × _Testsuites
  | 0, t => ([], t)
  | n + 1, t =>
    match t.next with
    | none => ([], t)
    | some (s, t2) =>
      let r := _Testsuites.run n t2
      (s :: r.1, r.2)

/-- Embedding of the abstract `TestXml` capability set (src/report/xml.py,
lines 121-140): `name`, `outcome`, `testsuites`. -/
structure TestXml where
  name : String
  outcome : _Outcome
  testsuites : _Testsuites
  deriving Repr, DecidableEq

/-- Embedding of `_TestXmlFromJUnit` (src/report/xml.py, lines 143-164):
the constructor stores the document and caches
`_Testsuites(xml)` and `_Outcome(xml)` once. -/
structure _TestXmlFromJUnit where
  _xml : JUnitXml
  _testsuites : _Testsuites
  _outcome : _Outcome
  deriving Repr, DecidableEq

/-- Construction `_TestXmlFromJUnit(xml)`. -/
def _TestXmlFromJUnit.make (xml : JUnitXml) : _TestXmlFromJUnit :=
  ⟨xml, _Testsuites.fresh xml, _Outcome.mk xml⟩

/-- Accessor `name`: `return self._xml.name`. -/
def _TestXmlFromJUnit.name (t : _TestXmlFromJUnit) : String :=
  t._xml.name

/-- Accessor `outcome`: `return self._outcome` (the cached value). -/
def _TestXmlFromJUnit.outcome (t : _TestXmlFromJUnit) : _Outcome :=
  t._outcome

/-- Accessor `testsuites`: `return self._testsuites` (the cached value). -/
def _TestXmlFromJUnit.testsuites (t : _TestXmlFromJUnit) : _Testsuites :=
  t._testsuites

/-- View of a `_TestXmlFromJUnit` through the abstract `TestXml`
capability set. -/
def _TestXmlFromJUnit.asTestXml (t : _TestXmlFromJUnit) : TestXml :=
  ⟨t.name, t.outcome, t.testsuites⟩

/-- Embedding of `PytestXml` (src/report/xml.py, lines 167-187): stores
`_TestXmlFromJUnit(JUnitXml.fromfile(path))` and the path. -/
structure PytestXml where
  _xml : _TestXmlFromJUnit
  _path : String
  deriving Repr, DecidableEq

/-- Construction `PytestXml(path)`: the external parser call
`JUnitXml.fromfile(path)` is the black box producing `doc`. -/
def PytestXml.make (path : String) (doc : JUnitXml) : PytestXml :=
  ⟨_TestXmlFromJUnit.make doc, path⟩

/-- Accessor `name`: `return self._path`. -/
def PytestXml.name (p : PytestXml) : String :=
  p._path

/-- Accessor `outcome`: `return self._xml.outcome` (delegation). -/
def PytestXml.outcome (p : PytestXml) : _Outcome :=
  p._xml.outcome

/-- Accessor `testsuites`: `return self._xml.testsuites` (delegation). -/
def PytestXml.testsuites (p : PytestXml) : _Testsuites :=
  p._xml.testsuites

/-- Embedding of `ReportPage` (src/report/xml.py, lines 190-227): holds
the `TestXml` and the mutable text buffer `_content`. -/
structure ReportPage where
  _xml : TestXml
  _content : String
  deriving Repr, DecidableEq

/-- Construction `ReportPage(xml)`: `self._content = ''`. -/
def ReportPage.make (x : TestXml) : ReportPage :=
  ⟨x, ""⟩

/-- Embedding of `ReportPage.content`: `return self._content`. -/
def ReportPage.content (p : ReportPage) : String :=
  p._content

/-- Embedding of `ReportPage.build_results_table`: returns the
formatted text and, because methods are embedded as state
transformers, the (unmodified) page state.  The single log emission in
the source is outside the embedded state. -/
def ReportPage.build_results_table (p : ReportPage) : String × ReportPage :=
  ( "<h1>Test report:</h1>\n"
      ++ "Total: " ++ toString p._xml.outcome.total ++ "\n"
      ++ "Passed: " ++ toString p._xml.outcome.passed ++ "\n"
      ++ "Failed: " ++ toString p._xml.outcome.failed ++ "\n"
      ++ "Skipped: " ++ toString p._xml.outcome.skipped ++ "\n"
      ++ "Errored: " ++ toString p._xml.outcome.errored ++ "\n",
    p )

/-- Embedding of `ReportPage.__enter__`:
`if not self._content: self._content += self.build_results_table()`;
the empty string is the only falsy string. -/
def ReportPage.enter (p : ReportPage) : ReportPage :=
  if p._content = "" then
    let r := p.build_results_table
    { r.2 with _content := r.2._content ++ r.1 }
  else p

/-- Embedding of `ReportPage.__exit__`: `self._content = ''` on every
exit path; `exc` is the (ignored) exception information, `none` on
normal completion. -/
def ReportPage.exit (p : ReportPage) ( _exc : Option String) : ReportPage :=
  { p with _content := "" }

/-- Concrete parsed document used by the witnesses: the end-to-end
scenario total=10, skipped=1, failures=2, errors=0 with one suite of
two cases. -/
def sampleXml : JUnitXml :=
  { name := "pytest"
    tests := 10
    skipped := 1
    failures := 2
    errors := 0
    suites :=
      [ { name := "suite1"
          cases :=
            [ { name := "test_x", classname := "pkg.Mod", result := some "AssertionError" },
              { name := "test_y", classname := "pkg.Mod", result := none } ] } ] }

/-- Concrete `TestXml` capability over `sampleXml`, as built by the
junit adapter. -/
def sampleTestXml : TestXml :=
  (_TestXmlFromJUnit.make sampleXml).asTestXml

/- ------------------------------------------------------------------
Helper lemmas about the iterator drivers.
------------------------------------------------------------------ -/

/-- Draining a `_Testsuite` cursor holding `l` with exactly `l.length`
requests yields the wrapped cases in order and ends with an empty
cursor. -/
theorem testsuite_run_yields_cases (s : JSuite) (l : List JCase) :
    _Testsuite.run l.length ⟨s, l⟩ = (l.map _Testcase.mk, ⟨s, []⟩) := by
  induction l with
  | nil => rfl
  | cons c rest ih =>
      simp [_Testsuite.run, _Testsuite.next, ih]

/-- Requests on an exhausted `_Testsuite` cursor yield nothing and
leave the state unchanged, for any number of requests. -/
theorem testsuite_run_after_end (s : JSuite) (k : Nat) :
    _Testsuite.run k ⟨s, []⟩ = ([], ⟨s, []⟩) := by
  cases k <;> simp [_Testsuite.run, _Testsuite.next]

/-- Draining a `_Testsuites` cursor holding `l` with exactly `l.length`
requests yields a fresh `_Testsuite` view per suite, in order, and ends
with an empty cursor. -/
theorem testsuites_run_yields_suites (x : JUnitXml) (l : List JSuite) :
    _Testsuites.run l.length ⟨x, l⟩ = (l.map _Testsuite.fresh, ⟨x, []⟩) := by
  induction l with
  | nil => rfl
  | cons s rest ih =>
      simp [_Testsuites.run, _Testsuites.next, ih]

/-- Requests on an exhausted `_Testsuites` cursor yield nothing and
leave the state unchanged, for any number of requests. -/
theorem testsuites_run_after_end (x : JUnitXml) (k : Nat) :
    _Testsuites.run k ⟨x, []⟩ = ([], ⟨x, []⟩) := by
  cases k <;> simp [_Testsuites.run, _Testsuites.next]

/- ------------------------------------------------------------------
Claim theorems.
------------------------------------------------------------------ -/

/-- C1: for every document with raw counters total T, skipped S,
failures F, errors E, the `_Outcome` view exposes `total`, `skipped`,
`failed`, `errored` equal to those counters verbatim and
`passed = T - S - F - E`; there is no clamping, so `passed` can be
negative on inconsistent counters. -/
theorem outcome_exposes_raw_counters_and_subtractive_passed :
    (∀ x : JUnitXml,
      (_Outcome.mk x).total = x.tests ∧
      (_Outcome.mk x).skipped = x.skipped ∧
      (_Outcome.mk x).failed = x.failures ∧
      (_Outcome.mk x).errored = x.errors ∧
      (_Outcome.mk x).passed = x.tests - x.skipped - x.failures - x.errors) ∧
    (∃ y : JUnitXml, (_Outcome.mk y).passed < 0) :=
  ⟨fun _ => ⟨rfl, rfl, rfl, rfl, rfl⟩,
   ⟨⟨"", 0, 1, 0, 0, []⟩, by decide⟩⟩

/-- C3: `_Testcase.status` returns exactly one of the two strings
`"Passed"` and `"Failed"`, and returns `"Failed"` if and only if the
case carries a non-null result object. -/
theorem testcase_status_is_binary_and_tracks_result (c : _Testcase) :
    (c.status = "Passed" ∨ c.status = "Failed") ∧
    (c.status = "Failed" ↔ c._case.result ≠ none) := by
  have hpf : ("Passed" : String) ≠ "Failed" := by decide
  rcases c with ⟨⟨n, cl, r⟩⟩
  cases r with
  | none =>
      refine ⟨Or.inl rfl, ?_⟩
      constructor
      · intro h
        exact absurd h hpf
      · intro h
        exact absurd rfl h
  | some a =>
      exact ⟨Or.inr rfl, by simp [_Testcase.status]⟩

/-- C4: for a case with classname `c` and name `n`, `name` with the
suite qualifier returns `c ++ ":" ++ n`, and without it returns the
bare name `n`. -/
theorem testcase_name_qualified_and_bare (c : _Testcase) :
    c.name true = c._case.classname ++ ":" ++ c._case.name ∧
    c.name false = c._case.name :=
  ⟨rfl, rfl⟩

/-- C2: acquiring a `ReportPage` whose buffer is empty builds and
stores report text consisting of the title line followed by exactly
five lines `Label: value` (each newline-terminated) in the fixed order
Total, Passed, Failed, Skipped, Errored, with the values taken from the
document's `_Outcome`; the returned handle exposes this text as
`content`. -/
theorem report_page_enter_builds_and_stores_report (p : ReportPage)
    (h : p.content = "") :
    (p.enter).content =
      String.join
        ("<h1>Test report:</h1>\n" ::
          List.map (fun kv => kv.1 ++ ": " ++ toString kv.2 ++ "\n")
            [("Total", p._xml.outcome.total),
             ("Passed", p._xml.outcome.passed),
             ("Failed", p._xml.outcome.failed),
             ("Skipped", p._xml.outcome.skipped),
             ("Errored", p._xml.outcome.errored)]) := by
  have h' : p._content = "" := h
  have hT : ("Total" : String) ++ ": " = "Total: " := rfl
  have hP : ("Passed" : String) ++ ": " = "Passed: " := rfl
  have hF : ("Failed" : String) ++ ": " = "Failed: " := rfl
  have hS : ("Skipped" : String) ++ ": " = "Skipped: " := rfl
  have hE : ("Errored" : String) ++ ": " = "Errored: " := rfl
  have k1 : ∀ X : String,
      "<h1>Test report:</h1>\n" ++ ("Total: " ++ X)
        = "<h1>Test report:</h1>\nTotal: " ++ X := fun X => by
    rw [← String.append_assoc]
    rfl
  have k2 : ∀ X : String, "\n" ++ ("Passed: " ++ X) = "\nPassed: " ++ X :=
    fun X => by
      rw [← String.append_assoc]
      rfl
  have k3 : ∀ X : String, "\n" ++ ("Failed: " ++ X) = "\nFailed: " ++ X :=
    fun X => by
      rw [← String.append_assoc]
      rfl
  have k4 : ∀ X : String, "\n" ++ ("Skipped: " ++ X) = "\nSkipped: " ++ X :=
    fun X => by
      rw [← String.append_assoc]
      rfl
  have k5 : ∀ X : String, "\n" ++ ("Errored: " ++ X) = "\nErrored: " ++ X :=
    fun X => by
      rw [← String.append_assoc]
      rfl
  simp [ReportPage.enter, h', ReportPage.content,
    ReportPage.build_results_table, String.join, List.foldl,
    String.empty_append, String.append_assoc, hT, hP, hF, hS, hE,
    k1, k2, k3, k4, k5]

/-- Witness for C2 at a concrete fresh page over `sampleTestXml`. -/
theorem report_page_enter_builds_and_stores_report_witness :
    (ReportPage.make sampleTestXml).content = "" ∧
    ((ReportPage.make sampleTestXml).enter).content =
      String.join
        ("<h1>Test report:</h1>\n" ::
          List.map (fun kv => kv.1 ++ ": " ++ toString kv.2 ++ "\n")
            [("Total", (ReportPage.make sampleTestXml)._xml.outcome.total),
             ("Passed", (ReportPage.make sampleTestXml)._xml.outcome.passed),
             ("Failed", (ReportPage.make sampleTestXml)._xml.outcome.failed),
             ("Skipped", (ReportPage.make sampleTestXml)._xml.outcome.skipped),
             ("Errored", (ReportPage.make sampleTestXml)._xml.outcome.errored)]) :=
  ⟨rfl,
   report_page_enter_builds_and_stores_report (ReportPage.make sampleTestXml) rfl⟩

/-- C5: iterating a fresh `_Testsuites` view over a document with N
suites yields exactly N `_Testsuite` views in document order; iterating
a fresh `_Testsuite` view over a suite with M cases yields exactly M
`_Testcase` views in document order; after exhaustion every further
request signals end-of-sequence (no wraparound, no repeated element). -/
theorem iteration_yields_all_in_order_then_signals_end :
    (∀ x : JUnitXml,
      _Testsuites.run (_Testsuites.fresh x).len (_Testsuites.fresh x)
        = (x.suites.map _Testsuite.fresh, ⟨x, []⟩) ∧
      _Testsuites.next ⟨x, []⟩ = none ∧
      ∀ k, _Testsuites.run k ⟨x, []⟩ = ([], ⟨x, []⟩)) ∧
    (∀ s : JSuite,
      _Testsuite.run (_Testsuite.fresh s).len (_Testsuite.fresh s)
        = (s.cases.map _Testcase.mk, ⟨s, []⟩) ∧
      _Testsuite.next ⟨s, []⟩ = none ∧
      ∀ k, _Testsuite.run k ⟨s, []⟩ = ([], ⟨s, []⟩)) :=
  ⟨fun x => ⟨testsuites_run_yields_suites x x.suites, rfl, testsuites_run_after_end x⟩,
   fun s => ⟨testsuite_run_yields_cases s s.cases, rfl, testsuite_run_after_end s⟩⟩

/-- C6: `__exit__` clears the internal buffer unconditionally on every
exit path, normal or exceptional, so `content` is the empty string
after exit regardless of whether an error occurred. -/
theorem report_page_exit_clears_buffer (p : ReportPage)
    (exc : Option String) :
    (p.exit exc).content = "" :=
  rfl

/-- C7: re-entering acquisition on a `ReportPage` whose buffer is
already non-empty is a no-op: the page is unchanged, so `content` after
the second acquisition equals `content` before it. -/
theorem report_page_reenter_nonempty_is_noop (p : ReportPage)
    (h : p.content ≠ "") :
    p.enter = p ∧ (p.enter).content = p.content := by
  have h' : ¬(p._content = "") := h
  constructor
  · simp [ReportPage.enter, h']
  · simp [ReportPage.enter, h']

/-- Witness for C7 at a concrete page whose buffer holds `"x"`. -/
theorem report_page_reenter_nonempty_is_noop_witness :
    (⟨sampleTestXml, "x"⟩ : ReportPage).content ≠ "" ∧
    (⟨sampleTestXml, "x"⟩ : ReportPage).enter = ⟨sampleTestXml, "x"⟩ :=
  ⟨by decide,
   (report_page_reenter_nonempty_is_noop ⟨sampleTestXml, "x"⟩ (by decide)).1⟩

/-- C8: for a `ReportPage` over an unmodified document, a full
acquire/release cycle followed by a second acquisition produces content
identical to the content of the first acquisition, and between the
cycles `content` is the empty string. -/
theorem report_page_cycle_is_reproducible (x : TestXml)
    (exc : Option String) :
    (((ReportPage.make x).enter).exit exc).content = "" ∧
    ((((ReportPage.make x).enter).exit exc).enter).content
      = ((ReportPage.make x).enter).content :=
  ⟨rfl, rfl⟩

/-- C9: `PytestXml` reports the caller-supplied path as its name in
place of the document's internal name (which the base adapter reports),
while its `outcome` and `testsuites` accessors return exactly what the
base adapter over the same document returns. -/
theorem pytest_xml_renames_and_delegates (path : String) (doc : JUnitXml) :
    (PytestXml.make path doc).name = path ∧
    (_TestXmlFromJUnit.make doc).name = doc.name ∧
    (PytestXml.make path doc).outcome = (_TestXmlFromJUnit.make doc).outcome ∧
    (PytestXml.make path doc).testsuites = (_TestXmlFromJUnit.make doc).testsuites :=
  ⟨rfl, rfl, rfl, rfl⟩

/-- C10: calling `build_results_table` directly returns the formatted
text but leaves the page state, and hence its buffer, unchanged. -/
theorem build_results_table_leaves_buffer_unchanged (p : ReportPage) :
    (p.build_results_table).2 = p ∧
    (p.build_results_table).2.content = p.content :=
  ⟨rfl, rfl⟩
